import Mathlib

/-
  Verification development for the uc-intg-hubitat integration driver.

  The Python sources (config.py, driver.py, entities.py, hubitat.py) are
  shallowly embedded below.  Python values that flow through the program
  (JSON documents, device records, attribute values) are modelled by the
  inductive type PyVal; machine floats never matter to the verified
  properties beyond exact conversions, so numbers are modelled as rationals.
  Network and file effects are modelled by explicit environments.
-/

/-- A Python/JSON value as used by the integration driver.  Dictionaries are
association lists in insertion order, mirroring Python dict semantics
(the program only ever builds dicts with distinct keys). -/
inductive PyVal where
  | none
  | bool (b : Bool)
  | num (q : Rat)
  | str (s : String)
  | list (xs : List PyVal)
  | dict (kvs : List (PyVal × PyVal))

/-- Python equality (==) as exercised by this program.  Every comparison the
driver performs has a scalar on at least one side (string capability names,
string attribute values, string and numeric dict keys), so container
comparisons never occur; we model them as false and never rely on that case. -/
def pyEq (a b : PyVal) : Bool :=
  match a, b with
  | .none, .none => true
  | .bool x, .bool y => x == y
  | .num x, .num y => x == y
  | .str x, .str y => x == y
  | _, _ => false

/-- Python truthiness, used by `or` defaults and `if params` style checks. -/
def pyTruthy (v : PyVal) : Bool :=
  match v with
  | .none => false
  | .bool b => b
  | .num q => !(q == 0)
  | .str s => !(s == "")
  | .list xs => !xs.isEmpty
  | .dict kvs => !kvs.isEmpty

/-- Python str() on the values this driver stringifies (device ids and
command parameters, all scalars in practice).  The rendering of containers
and of non-integer numbers is abstracted: those strings only ever feed the
opaque network environment, so their exact spelling is irrelevant. -/
def pyStr (v : PyVal) : String :=
  match v with
  | .str s => s
  | .num q => if q.den == 1 then toString q.num else toString q.num ++ "." ++ toString q.den
  | .bool b => if b then "True" else "False"
  | .none => "None"
  | .list _ => "[...]"
  | .dict _ => "dict"

/-- Dictionary lookup: Python `d.get(k)` / `d[k]` key search by ==. -/
def dGet? (kvs : List (PyVal × PyVal)) (k : PyVal) : Option PyVal :=
  match kvs with
  | [] => Option.none
  | (k', v) :: rest => if pyEq k' k then some v else dGet? rest k

/-- Python `d.get(k, default)`. -/
def dGetD (kvs : List (PyVal × PyVal)) (k : PyVal) (default : PyVal) : PyVal :=
  (dGet? kvs k).getD default

/-- Python `d[k] = v`: replace the value of an existing key in place,
otherwise append (dicts preserve insertion order). -/
def dSet (kvs : List (PyVal × PyVal)) (k v : PyVal) : List (PyVal × PyVal) :=
  match kvs with
  | [] => [(k, v)]
  | (k', v') :: rest => if pyEq k' k then (k', v) :: rest else (k', v') :: dSet rest k v

/-- Python `value in someList`: any element equal to the probe. -/
def listContainsStr (xs : List PyVal) (s : String) : Bool :=
  xs.any (fun x => pyEq x (.str s))

/-- Entity attribute maps have string keys throughout the driver.
Lookup for them. -/
def eGet? (m : List (String × PyVal)) (k : String) : Option PyVal :=
  match m with
  | [] => Option.none
  | (k', v) :: rest => if k' = k then some v else eGet? rest k

/-- Entity attribute `get` with default. -/
def eGetD (m : List (String × PyVal)) (k : String) (default : PyVal) : PyVal :=
  (eGet? m k).getD default

/-- Entity attribute assignment. -/
def eSet (m : List (String × PyVal)) (k : String) (v : PyVal) : List (String × PyVal) :=
  match m with
  | [] => [(k, v)]
  | (k', v') :: rest => if k' = k then (k', v) :: rest else (k', v') :: eSet rest k v

/-- Substring test, modelling Python `needle in haystack` on strings. -/
def strContains (haystack needle : String) : Bool :=
  needle == "" || (haystack.splitOn needle).length ≥ 2

/-- Python `x in container` for a string probe.  Lists test element
equality, strings test substring containment, dicts test key membership;
on numbers, booleans and None the `in` operator raises TypeError, which we
surface as an error. -/
def pyIn (s : String) (container : PyVal) : Except Unit Bool :=
  match container with
  | .list xs => .ok (listContainsStr xs s)
  | .str t => .ok (strContains t s)
  | .dict kvs => .ok (kvs.any (fun kv => pyEq kv.1 (.str s)))
  | _ => .error ()

/-- Numeric value of a digit string. -/
def digitsVal (cs : List Char) : Nat :=
  cs.foldl (fun a c => a * 10 + (c.toNat - 48)) 0

/-- Powers of ten over Nat (kernel-reducible). -/
def pow10 : Nat → Nat
  | 0 => 1
  | k + 1 => 10 * pow10 k

/-- Assemble a rational from sign, decimal mantissa, number of fraction
digits, and decimal exponent, using only kernel-reducible integer
arithmetic. -/
def ratOfParts (neg : Bool) (mant : Nat) (fracLen : Nat) (e : Int) : Rat :=
  let m : Int := if neg then Int.neg (Int.ofNat mant) else Int.ofNat mant
  let shift : Int := Int.sub e (Int.ofNat fracLen)
  if 0 ≤ shift then mkRat (Int.mul m (Int.ofNat (pow10 shift.toNat))) 1
  else mkRat m (pow10 (Int.neg shift).toNat)

/-- Parse an optional decimal exponent marker; returns the exponent (0 when
absent or malformed, leaving the input unconsumed in that case). -/
def parseExpPart (cs : List Char) : Int × List Char :=
  match cs with
  | e :: rest =>
    if e = 'e' ∨ e = 'E' then
      let (eneg, rest2) : Bool × List Char :=
        match rest with
        | '-' :: r => (true, r)
        | '+' :: r => (false, r)
        | _ => (false, rest)
      let expPart := rest2.takeWhile Char.isDigit
      if expPart.isEmpty then (0, cs)
      else
        ((if eneg then Int.neg (Int.ofNat (digitsVal expPart)) else Int.ofNat (digitsVal expPart)),
          rest2.dropWhile Char.isDigit)
    else (0, cs)
  | [] => (0, cs)

/-- Parse a Python float literal (used by float() on strings): optional
sign, digits with optional fraction, optional exponent. -/
def strToRat? (s : String) : Option Rat :=
  let cs := s.trim.toList
  let (neg, cs1) : Bool × List Char :=
    match cs with
    | '-' :: rest => (true, rest)
    | '+' :: rest => (false, rest)
    | _ => (false, cs)
  let intPart := cs1.takeWhile Char.isDigit
  let cs2 := cs1.dropWhile Char.isDigit
  let parsed : Option (Nat × Nat × List Char) :=
    match cs2 with
    | '.' :: rest =>
      let fracPart := rest.takeWhile Char.isDigit
      if intPart.isEmpty && fracPart.isEmpty then Option.none
      else
        some (digitsVal intPart * pow10 fracPart.length + digitsVal fracPart,
          fracPart.length, rest.dropWhile Char.isDigit)
    | _ =>
      if intPart.isEmpty then Option.none
      else some (digitsVal intPart, 0, cs2)
  match parsed with
  | Option.none => Option.none
  | some (mant, flen, cs3) =>
    let (e, cs4) := parseExpPart cs3
    if cs4.isEmpty then some (ratOfParts neg mant flen e) else Option.none

/-- Python float() conversion; error means a raised exception. -/
def pyFloat (v : PyVal) : Except Unit Rat :=
  match v with
  | .num q => .ok q
  | .bool b => .ok (if b then 1 else 0)
  | .str s =>
    match strToRat? s with
    | some q => .ok q
    | Option.none => .error ()
  | _ => .error ()

/- ### JSON parsing, modelling the standard library json.loads -/

/-- Hex digit value. -/
def hexDigit? (c : Char) : Option Nat :=
  if c.isDigit then some (c.toNat - 48)
  else if 'a' ≤ c ∧ c ≤ 'f' then some (c.toNat - 87)
  else if 'A' ≤ c ∧ c ≤ 'F' then some (c.toNat - 55)
  else Option.none

/-- Skip JSON whitespace. -/
def skipWs (cs : List Char) : List Char :=
  match cs with
  | c :: rest => if c = ' ' ∨ c = '\t' ∨ c = '\n' ∨ c = '\r' then skipWs rest else c :: rest
  | [] => []

/-- Parse the body of a JSON string after the opening quote. -/
def parseStringBody : Nat → List Char → String → Option (String × List Char)
  | 0, _, _ => Option.none
  | _, [], _ => Option.none
  | fuel + 1, c :: cs, acc =>
    if c = '"' then some (acc, cs)
    else if c = '\\' then
      match cs with
      | [] => Option.none
      | e :: cs2 =>
        if e = '"' then parseStringBody fuel cs2 (acc.push '"')
        else if e = '\\' then parseStringBody fuel cs2 (acc.push '\\')
        else if e = '/' then parseStringBody fuel cs2 (acc.push '/')
        else if e = 'b' then parseStringBody fuel cs2 (acc.push (Char.ofNat 8))
        else if e = 'f' then parseStringBody fuel cs2 (acc.push (Char.ofNat 12))
        else if e = 'n' then parseStringBody fuel cs2 (acc.push '\n')
        else if e = 'r' then parseStringBody fuel cs2 (acc.push '\r')
        else if e = 't' then parseStringBody fuel cs2 (acc.push '\t')
        else if e = 'u' then
          match cs2 with
          | h1 :: h2 :: h3 :: h4 :: cs3 =>
            match hexDigit? h1, hexDigit? h2, hexDigit? h3, hexDigit? h4 with
            | some a, some b, some c3, some d =>
              parseStringBody fuel cs3 (acc.push (Char.ofNat (((a * 16 + b) * 16 + c3) * 16 + d)))
            | _, _, _, _ => Option.none
          | _ => Option.none
        else Option.none
    else if c.toNat < 32 then Option.none
    else parseStringBody fuel cs (acc.push c)

/-- Parse a JSON number (strict grammar: no leading zeros, optional
fraction with at least one digit, optional exponent), yielding a rational. -/
def parseNumber (cs : List Char) : Option (Rat × List Char) :=
  let (neg, cs1) : Bool × List Char :=
    match cs with
    | '-' :: rest => (true, rest)
    | _ => (false, cs)
  let intPart := cs1.takeWhile Char.isDigit
  let cs2 := cs1.dropWhile Char.isDigit
  if intPart.isEmpty then Option.none
  else if intPart.length ≥ 2 && intPart.headD '0' == '0' then Option.none
  else
    match cs2 with
    | '.' :: rest =>
      let fracPart := rest.takeWhile Char.isDigit
      if fracPart.isEmpty then Option.none
      else
        let (e, cs4) := parseExpPart (rest.dropWhile Char.isDigit)
        some (ratOfParts neg (digitsVal intPart * pow10 fracPart.length + digitsVal fracPart)
          fracPart.length e, cs4)
    | _ =>
      let (e, cs4) := parseExpPart cs2
      some (ratOfParts neg (digitsVal intPart) 0 e, cs4)

mutual
/-- Parse one JSON value.  Fuel bounds the recursion depth. -/
def parseVal : Nat → List Char → Option (PyVal × List Char)
  | 0, _ => Option.none
  | fuel + 1, cs =>
    match skipWs cs with
    | [] => Option.none
    | c :: rest =>
      if c = 'n' then
        match rest with
        | 'u' :: 'l' :: 'l' :: rest2 => some (.none, rest2)
        | _ => Option.none
      else if c = 't' then
        match rest with
        | 'r' :: 'u' :: 'e' :: rest2 => some (.bool true, rest2)
        | _ => Option.none
      else if c = 'f' then
        match rest with
        | 'a' :: 'l' :: 's' :: 'e' :: rest2 => some (.bool false, rest2)
        | _ => Option.none
      else if c = '"' then
        match parseStringBody (rest.length + 1) rest "" with
        | some (s, rest2) => some (.str s, rest2)
        | Option.none => Option.none
      else if c = '[' then
        match skipWs rest with
        | ']' :: rest2 => some (.list [], rest2)
        | rest2 =>
          match parseElems fuel rest2 with
          | some (xs, rest3) => some (.list xs, rest3)
          | Option.none => Option.none
      else if c = '\x7b' then
        match skipWs rest with
        | '\x7d' :: rest2 => some (.dict [], rest2)
        | rest2 =>
          match parseMembers fuel rest2 with
          | some (kvs, rest3) => some (.dict kvs, rest3)
          | Option.none => Option.none
      else if c = '-' ∨ c.isDigit then
        match parseNumber (c :: rest) with
        | some (q, rest2) => some (.num q, rest2)
        | Option.none => Option.none
      else Option.none

/-- Parse the elements of a non-empty JSON array, up to and including the
closing bracket. -/
def parseElems : Nat → List Char → Option (List PyVal × List Char)
  | 0, _ => Option.none
  | fuel + 1, cs =>
    match parseVal fuel cs with
    | some (v, rest) =>
      match skipWs rest with
      | ',' :: rest2 =>
        match parseElems fuel rest2 with
        | some (xs, rest3) => some (v :: xs, rest3)
        | Option.none => Option.none
      | ']' :: rest2 => some ([v], rest2)
      | _ => Option.none
    | Option.none => Option.none

/-- Parse the members of a non-empty JSON object, up to and including the
closing brace. -/
def parseMembers : Nat → List Char → Option (List (PyVal × PyVal) × List Char)
  | 0, _ => Option.none
  | fuel + 1, cs =>
    match skipWs cs with
    | '"' :: rest =>
      match parseStringBody (rest.length + 1) rest "" with
      | some (k, rest2) =>
        match skipWs rest2 with
        | ':' :: rest3 =>
          match parseVal fuel rest3 with
          | some (v, rest4) =>
            match skipWs rest4 with
            | ',' :: rest5 =>
              match parseMembers fuel rest5 with
              | some (kvs, rest6) => some ((.str k, v) :: kvs, rest6)
              | Option.none => Option.none
            | '\x7d' :: rest5 => some ([(.str k, v)], rest5)
            | _ => Option.none
          | Option.none => Option.none
        | _ => Option.none
      | Option.none => Option.none
    | _ => Option.none
end

/-- json.loads: parse a complete JSON document; trailing garbage rejected.
Failure (Option.none) models a raised json.JSONDecodeError. -/
def jsonParse (s : String) : Option PyVal :=
  let cs := s.toList
  match parseVal (2 * cs.length + 4) cs with
  | some (v, rest) => if skipWs rest = [] then some v else Option.none
  | Option.none => Option.none

/- ### entities.py: EntityMapper -/

/-- EntityMapper._normalize_attributes (leading underscore dropped):
a dict is returned as is; a list of objects carrying both a name and a
currentValue key is folded into a dict keyed by the name value, later
entries overwriting earlier ones; anything else yields the empty dict. -/
def EntityMapper.normalize_attributes (attributes : PyVal) : List (PyVal × PyVal) :=
  match attributes with
  | .dict kvs => kvs
  | .list xs =>
    xs.foldl (fun normalized attr =>
      match attr with
      | .dict akvs =>
        match dGet? akvs (.str "name"), dGet? akvs (.str "currentValue") with
        | some n, some v => dSet normalized n v
        | _, _ => normalized
      | _ => normalized) []
  | _ => []

/-- One step of capability-list normalization:
`cap if isinstance(cap, str) else cap.get("name", "")`.
A value that is neither a string nor a dict has no .get method, so the
source raises AttributeError there; we surface that as an error. -/
def capName (cap : PyVal) : Except Unit PyVal :=
  match cap with
  | .str s => .ok (.str s)
  | .dict kvs => .ok (dGetD kvs (.str "name") (.str ""))
  | _ => .error ()

/-- device.get(key, default): raises (error) when the receiver is not a
dict. -/
def pyGetD (d : PyVal) (k : String) (default : PyVal) : Except Unit PyVal :=
  match d with
  | .dict kvs => .ok (dGetD kvs (.str k) default)
  | _ => .error ()

/-- EntityMapper.get_entity_type: classify a device record from its
capability list.  Returns the UC entity type string, or Option.none for
unsupported sensor-only devices; error models a raised exception while
normalizing a malformed capability entry. -/
def EntityMapper.get_entity_type (device : PyVal) : Except Unit (Option String) :=
  match pyGetD device "capabilities" (.list []) with
  | .error e => .error e
  | .ok capabilities =>
    match (match capabilities with
      | .list caps => caps.mapM capName
      | _ => .ok []) with
    | .error e => .error e
    | .ok cap_list =>
      .ok (if listContainsStr cap_list "Thermostat" then some "climate"
        else if listContainsStr cap_list "Light" || listContainsStr cap_list "ColorControl"
            || (listContainsStr cap_list "Switch" && listContainsStr cap_list "SwitchLevel") then
          some "light"
        else if listContainsStr cap_list "Switch" then some "switch"
        else if listContainsStr cap_list "Lock" then some "lock"
        else Option.none)

/-- The dispatch in driver.py load_devices: a device with entity type None
is skipped, and only the light, switch and climate branches construct an
entity; every other type string falls to the else branch and is skipped.
True means load_devices adds a controllable entity for this type. -/
def load_devices_produces_entity (entity_type : Option String) : Bool :=
  match entity_type with
  | Option.none => false
  | some t => t == "light" || t == "switch" || t == "climate"

/-- Whether an Except value carries a result (the call did not raise). -/
def exceptIsOk {ε α : Type} (e : Except ε α) : Bool :=
  match e with
  | .ok _ => true
  | .error _ => false

/-- UC climate entity features (ucapi.climate.Features). -/
inductive ClimateFeature where
  | on_off
  | heat
  | cool
deriving DecidableEq

/-- The supported-modes value after the guarded json.loads: a string is
parsed as JSON with a parse failure collapsing to the empty list (the
bare except branch); any non-string value passes through unchanged. -/
def parsedModes (attributes : List (PyVal × PyVal)) : PyVal :=
  match dGetD attributes (.str "supportedThermostatModes") (.str "[]") with
  | .str s => (jsonParse s).getD (.list [])
  | v => v

/-- The climate feature list: ON_OFF always, then HEAT and COOL when
"heat" and "cool" are members of the parsed supported modes.  The
membership tests raise TypeError (error) on non-container modes values. -/
def climate_features (attributes : List (PyVal × PyVal)) : Except Unit (List ClimateFeature) :=
  match pyIn "heat" (parsedModes attributes) with
  | .error e => .error e
  | .ok hasHeat =>
    match pyIn "cool" (parsedModes attributes) with
    | .error e => .error e
    | .ok hasCool =>
      .ok ([ClimateFeature.on_off]
        ++ (if hasHeat then [ClimateFeature.heat] else [])
        ++ (if hasCool then [ClimateFeature.cool] else []))

/-- The climate state attribute derived from thermostatMode (ucapi
climate States modelled as their name strings). -/
def climate_state (attributes : List (PyVal × PyVal)) : String :=
  let current_mode := dGetD attributes (.str "thermostatMode") (.str "off")
  if pyEq current_mode (.str "off") then "OFF"
  else if pyEq current_mode (.str "heat") then "HEAT"
  else if pyEq current_mode (.str "cool") then "COOL"
  else if pyEq current_mode (.str "auto") then "AUTO"
  else "OFF"

/-- current_temperature / target_temperature computation: get with an
integer default, store float(value) unless the value is None in which
case the float default is stored.  Error models a raised float(). -/
def temp_attr (attributes : List (PyVal × PyVal)) (key : String) (default : Rat) :
    Except Unit Rat :=
  match dGetD attributes (.str key) (.num default) with
  | .none => .ok default
  | v => pyFloat v

/-- Setpoint computation: get with an integer default (20 for heating,
24 for cooling); a None value leaves the attribute unset (Option.none),
anything else is stored as float(value). -/
def setpoint_attr (attributes : List (PyVal × PyVal)) (key : String) (default : Rat) :
    Except Unit (Option Rat) :=
  match dGetD attributes (.str key) (.num default) with
  | .none => .ok Option.none
  | v =>
    match pyFloat v with
    | .ok q => .ok (some q)
    | .error e => .error e

/-- A UC climate entity as built by the mapper. -/
structure ClimateEntity where
  identifier : String
  name : PyVal
  features : List ClimateFeature
  attributes : List (String × PyVal)

/-- Assembly of the climate entity attribute map, in source order:
state, current_temperature, target_temperature, then the optional heat
and cool setpoints. -/
def climate_eattrs (st : String) (ct tt : Rat) (hs cs : Option Rat) :
    List (String × PyVal) :=
  let m := [("state", PyVal.str st)]
  let m := eSet m "current_temperature" (.num ct)
  let m := eSet m "target_temperature" (.num tt)
  let m :=
    match hs with
    | some q => eSet m "target_temperature_heat" (.num q)
    | Option.none => m
  match cs with
  | some q => eSet m "target_temperature_cool" (.num q)
  | Option.none => m

/-- EntityMapper.create_climate_entity: build a UC climate entity from a
thermostat device record.  Error models a raised exception (missing id
key, non-dict device, TypeError from the mode membership test, or a
failing float conversion). -/
def EntityMapper.create_climate_entity (device : PyVal) : Except Unit ClimateEntity :=
  match device with
  | .dict dkvs =>
    match dGet? dkvs (.str "id") with
    | Option.none => .error ()
    | some idv =>
      let device_id := pyStr idv
      let labelv := dGetD dkvs (.str "label") .none
      let namev := dGetD dkvs (.str "name") (.str ("Device " ++ device_id))
      let name := if pyTruthy labelv then labelv else namev
      let attributes := EntityMapper.normalize_attributes (dGetD dkvs (.str "attributes") (.dict []))
      match climate_features attributes with
      | .error e => .error e
      | .ok features =>
        match temp_attr attributes "temperature" 20 with
        | .error e => .error e
        | .ok ct =>
          match temp_attr attributes "thermostatSetpoint" 20 with
          | .error e => .error e
          | .ok tt =>
            match (if features.contains ClimateFeature.heat then
                setpoint_attr attributes "heatingSetpoint" 20 else .ok Option.none) with
            | .error e => .error e
            | .ok hs =>
              match (if features.contains ClimateFeature.cool then
                  setpoint_attr attributes "coolingSetpoint" 24 else .ok Option.none) with
              | .error e => .error e
              | .ok cs =>
                .ok ⟨device_id, name, features,
                  climate_eattrs (climate_state attributes) ct tt hs cs⟩
  | _ => .error ()

/-- A thermostat device record parametrized by its raw attribute dict,
used to state claims about entity building. -/
def thermoDevice (attrs : List (PyVal × PyVal)) : PyVal :=
  .dict [(.str "id", .num 1), (.str "name", .str "Thermo"),
    (.str "capabilities", .list [.str "Thermostat"]),
    (.str "attributes", .dict attrs)]

/- ### hubitat.py: HubitatClient -/

/-- Outcome of one HTTP GET issued through the aiohttp session: a response
with a status code and a parsed JSON body, or a raised exception
(transport failure; a body that fails JSON decoding is also folded into
this case since response.json() raises inside the same try block). -/
inductive HttpResp where
  | resp (status : Nat) (body : PyVal)
  | exc

/-- The network as seen by the client: the bulk device-listing endpoint
and the per-device detail endpoint. -/
structure NetEnv where
  devicesList : HttpResp
  deviceDetail : String → HttpResp

/-- HubitatClient.get_device: the device record on HTTP 200, no value on
any other status or on a raised exception. -/
def HubitatClient.get_device (env : NetEnv) (device_id : String) : Option PyVal :=
  match env.deviceDetail device_id with
  | .resp status body => if status == 200 then some body else Option.none
  | .exc => Option.none

/-- The body of HubitatClient.get_all_devices inside its try block: on a
200 bulk response, fetch each device individually and fall back to the
basic record when the detail fetch yields nothing; on any other status
return the empty list.  An error models a raised exception (transport
failure, or iterating/field-accessing a malformed bulk body, which in the
source also ends in the enclosing except branch). -/
def get_all_devices_body (env : NetEnv) : Except Unit (List PyVal) :=
  match env.devicesList with
  | .exc => .error ()
  | .resp status body =>
    if status == 200 then
      match body with
      | .list basic_devices =>
        basic_devices.mapM (fun basic_device =>
          match pyGetD basic_device "id" .none with
          | .error e => .error e
          | .ok idv =>
            match HubitatClient.get_device env (pyStr idv) with
            | some full_device => .ok full_device
            | Option.none => .ok basic_device)
      | _ => .error ()
    else .ok []

/-- HubitatClient.get_all_devices: the try body with the except branch
converting any raised exception into the empty list.  The Except result
type records whether the call raises past the client boundary: it never
does, by construction of the except branch. -/
def HubitatClient.get_all_devices (env : NetEnv) : Except Unit (List PyVal) :=
  match get_all_devices_body env with
  | .ok full_devices => .ok full_devices
  | .error _ => .ok []

/-- Python `x is None`. -/
def pyIsNone (v : PyVal) : Bool :=
  match v with
  | .none => true
  | _ => false

/-- HubitatClient.test_connection: calls get_all_devices and reports
whether the result is not None; the except branch returning False is
only reachable if get_all_devices raises. -/
def HubitatClient.test_connection (env : NetEnv) : Bool :=
  match HubitatClient.get_all_devices env with
  | .ok devices => !pyIsNone (.list devices)
  | .error _ => false

/-- Trailing-slash stripping applied to the hub address in __init__. -/
def rstripSlash (s : String) : String :=
  String.mk ((s.toList.reverse.dropWhile (fun c => c = '/')).reverse)

/-- The Maker API base URL built in HubitatClient.__init__. -/
def base_url (hub_address app_id : String) : String :=
  "http://" ++ rstripSlash hub_address ++ "/apps/api/" ++ app_id

/-- The command URL built by send_command: the parameter segment is
slash-joined stringified parameters, omitted entirely when the parameter
list is None or empty (Python truthiness of the list). -/
def command_url (base access_token device_id command : String)
    (parameters : Option (List PyVal)) : String :=
  let withParams (ps : List PyVal) : String :=
    base ++ "/devices/" ++ device_id ++ "/" ++ command ++ "/"
      ++ String.intercalate "/" (ps.map pyStr) ++ "?access_token=" ++ access_token
  let withoutParams : String :=
    base ++ "/devices/" ++ device_id ++ "/" ++ command ++ "?access_token=" ++ access_token
  match parameters with
  | some ps => if !ps.isEmpty then withParams ps else withoutParams
  | Option.none => withoutParams

/-- The network as seen by send_command: the response for each URL. -/
structure CmdEnv where
  http : String → HttpResp

/-- HubitatClient.send_command: True exactly on an HTTP 200 response,
False on any other status and on any raised exception. -/
def HubitatClient.send_command (env : CmdEnv) (base access_token : String)
    (device_id command : String) (parameters : Option (List PyVal)) : Bool :=
  match env.http (command_url base access_token device_id command parameters) with
  | .resp status _body => status == 200
  | .exc => false

/- ### driver.py: climate command handling and the setup flow -/

/-- One hub command dispatched through HubitatClient.send_command. -/
structure HubCmd where
  device_id : String
  command : String
  parameters : Option (List PyVal)

/-- The climate branch of device_command_handler: given the entity id,
its cached attribute map, the command id and the optional parameter
mapping, produce the hub commands sent (in order) and the updated
attribute map.  The ucapi climate States are modelled as their name
strings and the ucapi climate Commands as their id strings.  An error
models a raised exception inside the handler (a failing float()), which
the source converts to a SERVER_ERROR status. -/
def climate_command (device_id : String) (attrs : List (String × PyVal))
    (cmd_id : String) (params : Option (List (PyVal × PyVal))) :
    Except Unit (List HubCmd × List (String × PyVal)) :=
  if cmd_id == "on" then
    let last_mode0 := eGetD attrs "state" (.str "HEAT")
    let last_mode := if pyEq last_mode0 (.str "OFF") then .str "HEAT" else last_mode0
    if pyEq last_mode (.str "HEAT") then
      .ok ([⟨device_id, "heat", Option.none⟩], eSet attrs "state" (.str "HEAT"))
    else if pyEq last_mode (.str "COOL") then
      .ok ([⟨device_id, "cool", Option.none⟩], eSet attrs "state" (.str "COOL"))
    else if pyEq last_mode (.str "AUTO") then
      .ok ([⟨device_id, "auto", Option.none⟩], eSet attrs "state" (.str "AUTO"))
    else .ok ([], attrs)
  else if cmd_id == "off" then
    .ok ([⟨device_id, "off", Option.none⟩], eSet attrs "state" (.str "OFF"))
  else if cmd_id == "hvac_mode" then
    match params with
    | some p =>
      match dGet? p (.str "hvac_mode") with
      | some mode =>
        if pyEq mode (.str "off") then
          .ok ([⟨device_id, "off", Option.none⟩], eSet attrs "state" (.str "OFF"))
        else if pyEq mode (.str "heat") then
          .ok ([⟨device_id, "heat", Option.none⟩], eSet attrs "state" (.str "HEAT"))
        else if pyEq mode (.str "cool") then
          .ok ([⟨device_id, "cool", Option.none⟩], eSet attrs "state" (.str "COOL"))
        else if pyEq mode (.str "auto") then
          .ok ([⟨device_id, "auto", Option.none⟩], eSet attrs "state" (.str "AUTO"))
        else .ok ([], attrs)
      | Option.none => .ok ([], attrs)
    | Option.none => .ok ([], attrs)
  else if cmd_id == "target_temperature" then
    match params with
    | some p =>
      match dGet? p (.str "temperature") with
      | some temp =>
        let current_state := eGetD attrs "state" (.str "HEAT")
        if pyEq current_state (.str "HEAT") then
          match pyFloat temp with
          | .ok q =>
            .ok ([⟨device_id, "setHeatingSetpoint", some [temp]⟩],
              eSet (eSet attrs "target_temperature_heat" (.num q)) "target_temperature" (.num q))
          | .error e => .error e
        else if pyEq current_state (.str "COOL") then
          match pyFloat temp with
          | .ok q =>
            .ok ([⟨device_id, "setCoolingSetpoint", some [temp]⟩],
              eSet (eSet attrs "target_temperature_cool" (.num q)) "target_temperature" (.num q))
          | .error e => .error e
        else
          match pyFloat temp with
          | .ok q =>
            .ok ([⟨device_id, "setHeatingSetpoint", some [temp]⟩],
              eSet attrs "target_temperature" (.num q))
          | .error e => .error e
      | Option.none => .ok ([], attrs)
    | Option.none => .ok ([], attrs)
  else if cmd_id == "target_temperature_heat" then
    match params with
    | some p =>
      match dGet? p (.str "temperature") with
      | some temp =>
        match pyFloat temp with
        | .ok q =>
          .ok ([⟨device_id, "setHeatingSetpoint", some [temp]⟩],
            eSet (eSet attrs "target_temperature_heat" (.num q)) "target_temperature" (.num q))
        | .error e => .error e
      | Option.none => .ok ([], attrs)
    | Option.none => .ok ([], attrs)
  else if cmd_id == "target_temperature_cool" then
    match params with
    | some p =>
      match dGet? p (.str "temperature") with
      | some temp =>
        match pyFloat temp with
        | .ok q =>
          .ok ([⟨device_id, "setCoolingSetpoint", some [temp]⟩],
            eSet (eSet attrs "target_temperature_cool" (.num q)) "target_temperature" (.num q))
        | .error e => .error e
      | Option.none => .ok ([], attrs)
    | Option.none => .ok ([], attrs)
  else .ok ([], attrs)

/-- Structured setup errors surfaced by the setup flow. -/
inductive SetupErrKind where
  | other
  | connectionRefused
deriving DecidableEq

/-- The setup actions handle_user_data_response can return. -/
inductive SetupAction where
  | err (e : SetupErrKind)
  | complete
deriving DecidableEq

/-- driver.py handle_user_data_response: validate the three input fields
for non-emptiness, test-connect, save the configuration, and complete.
The save outcome is passed in as a flag; loading devices afterwards has
no effect on the returned action. -/
def handle_user_data_response (env : NetEnv) (input_values : List (PyVal × PyVal))
    (save_ok : Bool) : SetupAction :=
  let hub_address := dGetD input_values (.str "hub_address") (.str "")
  let maker_api_id := dGetD input_values (.str "maker_api_id") (.str "")
  let access_token := dGetD input_values (.str "access_token") (.str "")
  if !pyTruthy hub_address || !pyTruthy maker_api_id || !pyTruthy access_token then
    .err .other
  else if !HubitatClient.test_connection env then
    .err .connectionRefused
  else if !save_ok then
    .err .other
  else
    .complete

/- ### config.py: HubitatConfig and ConfigurationManager -/

/-- The three-field hub configuration record. -/
structure HubitatConfig where
  hub_address : String
  maker_api_id : String
  access_token : String
deriving DecidableEq

/-- The data dict written by ConfigurationManager.save. -/
def configToData (c : HubitatConfig) : PyVal :=
  .dict [(.str "hub_address", .str c.hub_address),
    (.str "maker_api_id", .str c.maker_api_id),
    (.str "access_token", .str c.access_token)]

/-- The config.json file, modelled at the level of its parsed JSON
document: json.dump writes the document and json.load reads it back (the
round-trip of the standard json library on a dict of strings), so the
file content is the document itself; no value means the file is absent,
unreadable or malformed. -/
structure FileState where
  content : Option PyVal

/-- ConfigurationManager.save: on succeeding I/O, write the three-field
dict and report True; on an I/O failure the file is not replaced and the
report is False. -/
def ConfigurationManager.save (fs : FileState) (c : HubitatConfig) (io_ok : Bool) :
    FileState × Bool :=
  if io_ok then (⟨some (configToData c)⟩, true) else (fs, false)

/-- String content of a loaded config field; values written by save are
always strings. -/
def strField (v : PyVal) : String :=
  match v with
  | .str s => s
  | _ => ""

/-- ConfigurationManager.load: no value when the file is absent or
unreadable; otherwise rebuild the record from the parsed dict, missing
fields defaulting to empty strings; a document that is not a dict raises
inside the try block and also yields no value. -/
def ConfigurationManager.load (fs : FileState) : Option HubitatConfig :=
  match fs.content with
  | Option.none => Option.none
  | some data =>
    match data with
    | .dict kvs =>
      some ⟨strField (dGetD kvs (.str "hub_address") (.str "")),
        strField (dGetD kvs (.str "maker_api_id") (.str "")),
        strField (dGetD kvs (.str "access_token") (.str ""))⟩
    | _ => Option.none

/- ### Concrete inputs used by witnesses and counterexamples -/

/-- A thermostat that also advertises switch and lock capabilities, with
one capability given in object form. -/
def thermoLockDevice : PyVal :=
  .dict [(.str "id", .num 5),
    (.str "capabilities",
      .list [.str "Switch", .dict [(.str "name", .str "Thermostat")], .str "Lock"])]

/-- A lock-only device (plus a sensor capability outside the mapper
vocabulary). -/
def lockOnlyDevice : PyVal :=
  .dict [(.str "id", .num 6),
    (.str "capabilities", .list [.str "Lock", .str "Battery"])]

/-- A network on which every request raises. -/
def allFailEnv : NetEnv :=
  ⟨HttpResp.exc, fun _ => HttpResp.exc⟩

/-- A thermostat whose supported modes are a malformed JSON string. -/
def badModesAttrs : List (PyVal × PyVal) :=
  [(.str "supportedThermostatModes", .str "not json")]

/-- A thermostat whose supported modes value is a number, on which the
membership test raises. -/
def numModesAttrs : List (PyVal × PyVal) :=
  [(.str "supportedThermostatModes", .num 7)]

/-- A heat-capable thermostat record without a heatingSetpoint
attribute. -/
def heatNoSetpointAttrs : List (PyVal × PyVal) :=
  [(.str "supportedThermostatModes", .str "[\"heat\"]")]

/-- Cached climate entity attributes with the thermostat in COOL mode. -/
def coolEntityAttrs : List (String × PyVal) :=
  [("state", .str "COOL"), ("current_temperature", .num 22),
    ("target_temperature_heat", .num 21)]

/-- Cached climate entity attributes with the thermostat OFF. -/
def offEntityAttrs : List (String × PyVal) :=
  [("state", .str "OFF"), ("target_temperature_heat", .num 21)]

/-- A setTargetTemperature parameter mapping. -/
def tempParams : List (PyVal × PyVal) :=
  [(.str "temperature", .num 25)]

/- ### Helper lemmas -/

theorem eGet?_eSet_self (m : List (String × PyVal)) (k : String) (v : PyVal) :
    eGet? (eSet m k v) k = some v := by
  induction m with
  | nil => simp [eSet, eGet?]
  | cons hd tl ih =>
    obtain ⟨k2, v2⟩ := hd
    by_cases h : k2 = k <;> simp [eSet, eGet?, h, ih]

theorem eGet?_eSet_ne (m : List (String × PyVal)) (k2 k : String) (v : PyVal)
    (h : k2 ≠ k) : eGet? (eSet m k2 v) k = eGet? m k := by
  induction m with
  | nil => simp [eSet, eGet?, h]
  | cons hd tl ih =>
    obtain ⟨k3, v3⟩ := hd
    by_cases h3 : k3 = k2
    · subst h3
      simp [eSet, eGet?, h]
    · by_cases h4 : k3 = k
      · subst h4
        simp [eSet, eGet?, h3, Ne.symm h]
      · simp [eSet, eGet?, h3, h4, ih]

theorem get_all_devices_ok (env : NetEnv) :
    ∃ l, HubitatClient.get_all_devices env = .ok l := by
  unfold HubitatClient.get_all_devices
  cases hb : get_all_devices_body env with
  | ok l => exact ⟨l, rfl⟩
  | error e => exact ⟨[], rfl⟩

theorem test_connection_true (env : NetEnv) :
    HubitatClient.test_connection env = true := by
  obtain ⟨l, hl⟩ := get_all_devices_ok env
  unfold HubitatClient.test_connection
  rw [hl]
  rfl

theorem create_thermo_eq (attrs : List (PyVal × PyVal)) (fs : List ClimateFeature)
    (ct tt : Rat) (hs cs : Option Rat)
    (h1 : climate_features attrs = .ok fs)
    (h2 : temp_attr attrs "temperature" 20 = .ok ct)
    (h3 : temp_attr attrs "thermostatSetpoint" 20 = .ok tt)
    (h4 : (if fs.contains ClimateFeature.heat then
        setpoint_attr attrs "heatingSetpoint" 20 else .ok Option.none) = .ok hs)
    (h5 : (if fs.contains ClimateFeature.cool then
        setpoint_attr attrs "coolingSetpoint" 24 else .ok Option.none) = .ok cs) :
    EntityMapper.create_climate_entity (thermoDevice attrs) =
      .ok ⟨"1", .str "Thermo", fs, climate_eattrs (climate_state attrs) ct tt hs cs⟩ := by
  have e0 : EntityMapper.create_climate_entity (thermoDevice attrs) =
      (match climate_features attrs with
        | .error e => .error e
        | .ok features =>
          match temp_attr attrs "temperature" 20 with
          | .error e => .error e
          | .ok ct2 =>
            match temp_attr attrs "thermostatSetpoint" 20 with
            | .error e => .error e
            | .ok tt2 =>
              match (if features.contains ClimateFeature.heat then
                  setpoint_attr attrs "heatingSetpoint" 20 else .ok Option.none) with
              | .error e => .error e
              | .ok hs2 =>
                match (if features.contains ClimateFeature.cool then
                    setpoint_attr attrs "coolingSetpoint" 24 else .ok Option.none) with
                | .error e => .error e
                | .ok cs2 =>
                  .ok ⟨"1", .str "Thermo", features,
                    climate_eattrs (climate_state attrs) ct2 tt2 hs2 cs2⟩) := rfl
  rw [e0, h1, h2, h3]
  simp only [h4, h5]

theorem climate_features_error_entity (attrs : List (PyVal × PyVal))
    (h : climate_features attrs = .error ()) :
    EntityMapper.create_climate_entity (thermoDevice attrs) = .error () := by
  have e0 : EntityMapper.create_climate_entity (thermoDevice attrs) =
      (match climate_features attrs with
        | .error e => .error e
        | .ok features =>
          match temp_attr attrs "temperature" 20 with
          | .error e => .error e
          | .ok ct2 =>
            match temp_attr attrs "thermostatSetpoint" 20 with
            | .error e => .error e
            | .ok tt2 =>
              match (if features.contains ClimateFeature.heat then
                  setpoint_attr attrs "heatingSetpoint" 20 else .ok Option.none) with
              | .error e => .error e
              | .ok hs2 =>
                match (if features.contains ClimateFeature.cool then
                    setpoint_attr attrs "coolingSetpoint" 24 else .ok Option.none) with
                | .error e => .error e
                | .ok cs2 =>
                  .ok ⟨"1", .str "Thermo", features,
                    climate_eattrs (climate_state attrs) ct2 tt2 hs2 cs2⟩) := rfl
  rw [e0, h]

theorem eattrs_heat_some (st : String) (ct tt q : Rat) (cs : Option Rat) :
    eGet? (climate_eattrs st ct tt (some q) cs) "target_temperature_heat"
      = some (.num q) := by
  cases cs <;> rfl

theorem eattrs_heat_none (st : String) (ct tt : Rat) (cs : Option Rat) :
    eGet? (climate_eattrs st ct tt Option.none cs) "target_temperature_heat"
      = Option.none := by
  cases cs <;> rfl

theorem eattrs_cool_some (st : String) (ct tt q : Rat) (hs : Option Rat) :
    eGet? (climate_eattrs st ct tt hs (some q)) "target_temperature_cool"
      = some (.num q) := by
  cases hs <;> rfl

theorem eattrs_cool_none (st : String) (ct tt : Rat) (hs : Option Rat) :
    eGet? (climate_eattrs st ct tt hs Option.none) "target_temperature_cool"
      = Option.none := by
  cases hs <;> rfl

/- ### Claim theorems -/

/-- Claim C1: for every device record whose capability list, after
normalizing object-form entries to bare names, contains "Thermostat",
get_entity_type classifies the device as climate, regardless of any other
capabilities present. -/
theorem c1_thermostat_classifies_climate (device : PyVal) (caps cap_list : List PyVal)
    (hcaps : pyGetD device "capabilities" (.list []) = .ok (.list caps))
    (hnorm : caps.mapM capName = .ok cap_list)
    (hth : listContainsStr cap_list "Thermostat" = true) :
    EntityMapper.get_entity_type device = .ok (some "climate") := by
  unfold EntityMapper.get_entity_type
  rw [hcaps]
  simp only [hnorm, hth, if_true]

/-- Witness for C1 at a thermostat that also advertises Switch and Lock,
with the Thermostat capability in object form. -/
theorem c1_thermostat_classifies_climate_witness :
    pyGetD thermoLockDevice "capabilities" (.list [])
        = .ok (.list [.str "Switch", .dict [(.str "name", .str "Thermostat")], .str "Lock"]) ∧
    [PyVal.str "Switch", PyVal.dict [(.str "name", .str "Thermostat")], PyVal.str "Lock"].mapM capName
        = .ok [.str "Switch", .str "Thermostat", .str "Lock"] ∧
    listContainsStr [.str "Switch", .str "Thermostat", .str "Lock"] "Thermostat" = true ∧
    EntityMapper.get_entity_type thermoLockDevice = .ok (some "climate") :=
  ⟨rfl, rfl, rfl,
    c1_thermostat_classifies_climate thermoLockDevice
      [.str "Switch", .dict [(.str "name", .str "Thermostat")], .str "Lock"]
      [.str "Switch", .str "Thermostat", .str "Lock"] rfl rfl rfl⟩

/-- Claim C4: a device whose normalized capability list contains "Lock"
and none of "Thermostat", "Light", "ColorControl", "Switch" is classified
as "lock", which load_devices maps to no controllable entity; and every
classification result is climate, light, switch or a value producing no
entity (the unsupported kind in the sense of the spec). -/
theorem c4_lock_only_unsupported :
    (∀ device caps cap_list,
      pyGetD device "capabilities" (.list []) = .ok (.list caps) →
      caps.mapM capName = .ok cap_list →
      listContainsStr cap_list "Lock" = true →
      listContainsStr cap_list "Thermostat" = false →
      listContainsStr cap_list "Light" = false →
      listContainsStr cap_list "ColorControl" = false →
      listContainsStr cap_list "Switch" = false →
      EntityMapper.get_entity_type device = .ok (some "lock") ∧
        load_devices_produces_entity (some "lock") = false) ∧
    (∀ device r, EntityMapper.get_entity_type device = .ok r →
      r = some "climate" ∨ r = some "light" ∨ r = some "switch" ∨
        load_devices_produces_entity r = false) := by
  constructor
  · intro device caps cap_list hcaps hnorm hlock hth hlight hcc hsw
    refine ⟨?_, rfl⟩
    unfold EntityMapper.get_entity_type
    rw [hcaps]
    simp only [hnorm]
    simp [hth, hlight, hcc, hsw, hlock]
  · intro device r h
    unfold EntityMapper.get_entity_type at h
    split at h
    · exact absurd h (by simp)
    · split at h
      · exact absurd h (by simp)
      · injection h with h
        subst h
        split
        · exact Or.inl rfl
        · split
          · exact Or.inr (Or.inl rfl)
          · split
            · exact Or.inr (Or.inr (Or.inl rfl))
            · split
              · exact Or.inr (Or.inr (Or.inr rfl))
              · exact Or.inr (Or.inr (Or.inr rfl))

/-- Witness for C4 at a lock-plus-battery device. -/
theorem c4_lock_only_unsupported_witness :
    pyGetD lockOnlyDevice "capabilities" (.list [])
        = .ok (.list [.str "Lock", .str "Battery"]) ∧
    [PyVal.str "Lock", PyVal.str "Battery"].mapM capName
        = .ok [.str "Lock", .str "Battery"] ∧
    listContainsStr [.str "Lock", .str "Battery"] "Lock" = true ∧
    (EntityMapper.get_entity_type lockOnlyDevice = .ok (some "lock") ∧
      load_devices_produces_entity (some "lock") = false) :=
  ⟨rfl, rfl, rfl,
    c4_lock_only_unsupported.1 lockOnlyDevice [.str "Lock", .str "Battery"]
      [.str "Lock", .str "Battery"] rfl rfl rfl rfl rfl rfl rfl⟩

/-- Claim C5: for every network outcome, get_all_devices absorbs all
errors into a returned list and never raises, test_connection therefore
always returns True, and the setup flow can never surface the
CONNECTION_REFUSED error through the connectivity test. -/
theorem c5_connection_refused_unreachable (env : NetEnv)
    (input_values : List (PyVal × PyVal)) (save_ok : Bool) :
    exceptIsOk (HubitatClient.get_all_devices env) = true ∧
    HubitatClient.test_connection env = true ∧
    handle_user_data_response env input_values save_ok
      ≠ SetupAction.err SetupErrKind.connectionRefused := by
  obtain ⟨l, hl⟩ := get_all_devices_ok env
  refine ⟨by rw [hl]; rfl, test_connection_true env, ?_⟩
  unfold handle_user_data_response
  rw [test_connection_true env]
  simp only [Bool.not_true, Bool.false_eq_true, if_false]
  split
  · simp
  · split
    · simp
    · simp

/-- Claim C6: send_command returns True exactly when the hub answers the
command URL with HTTP 200; any other status and any transport exception
yields False, with no error propagating past the client boundary. -/
theorem c6_send_command_status_contract (env : CmdEnv)
    (base access_token device_id command : String) (parameters : Option (List PyVal)) :
    HubitatClient.send_command env base access_token device_id command parameters = true
      ↔ ∃ body, env.http (command_url base access_token device_id command parameters)
          = HttpResp.resp 200 body := by
  unfold HubitatClient.send_command
  cases hr : env.http (command_url base access_token device_id command parameters) with
  | resp status body =>
    constructor
    · intro h
      have h2 : (status == 200) = true := h
      have hs : status = 200 := by simpa using h2
      subst hs
      exact ⟨body, rfl⟩
    · rintro ⟨b, hb⟩
      injection hb with h1 h2
      subst h1
      rfl
  | exc =>
    constructor
    · intro h
      exact absurd h (by simp)
    · rintro ⟨b, hb⟩
      exact absurd hb (by simp)

/-- Claim C8: attribute normalization turns a list of name/currentValue
objects into the mapping keyed by the name values (in particular on the
spec example), and is the identity on inputs that are already mappings. -/
theorem c8_normalize_attributes_spec (kvs ps : List (PyVal × PyVal)) :
    EntityMapper.normalize_attributes (.dict kvs) = kvs ∧
    EntityMapper.normalize_attributes
        (.list [.dict [(.str "name", .str "switch"), (.str "currentValue", .str "on")]])
      = [(.str "switch", .str "on")] ∧
    EntityMapper.normalize_attributes
        (.list (ps.map (fun p => .dict [(.str "name", p.1), (.str "currentValue", p.2)])))
      = ps.foldl (fun acc p => dSet acc p.1 p.2) [] := by
  refine ⟨rfl, rfl, ?_⟩
  have e0 : EntityMapper.normalize_attributes
      (.list (ps.map (fun p => .dict [(.str "name", p.1), (.str "currentValue", p.2)])))
      = List.foldl (fun normalized attr =>
          match attr with
          | PyVal.dict akvs =>
            (match dGet? akvs (.str "name"), dGet? akvs (.str "currentValue") with
              | some n, some v => dSet normalized n v
              | _, _ => normalized)
          | _ => normalized) []
        (ps.map (fun p => .dict [(.str "name", p.1), (.str "currentValue", p.2)])) := rfl
  rw [e0, List.foldl_map]
  rfl

/-- Claim C9: saving a configuration and loading it back, when the file
I/O succeeds, returns a record equal to the original in all three
fields. -/
theorem c9_config_roundtrip (fs : FileState) (c : HubitatConfig) :
    (ConfigurationManager.save fs c true).2 = true ∧
    ConfigurationManager.load (ConfigurationManager.save fs c true).1 = some c :=
  ⟨rfl, rfl⟩

/-- Claim C10: test_connection returns True exactly when get_all_devices
does not raise, and an empty returned device list still counts as
success. -/
theorem c10_test_connection_iff_no_raise (env : NetEnv) :
    (HubitatClient.test_connection env = true
      ↔ exceptIsOk (HubitatClient.get_all_devices env) = true) ∧
    (HubitatClient.get_all_devices env = .ok [] →
      HubitatClient.test_connection env = true) := by
  obtain ⟨l, hl⟩ := get_all_devices_ok env
  refine ⟨⟨fun _ => by rw [hl]; rfl, fun _ => test_connection_true env⟩,
    fun _ => test_connection_true env⟩

/-- Witness for C10 at a network on which every request raises: the
device list comes back empty and the connection test still succeeds. -/
theorem c10_test_connection_iff_no_raise_witness :
    HubitatClient.get_all_devices allFailEnv = .ok [] ∧
    HubitatClient.test_connection allFailEnv = true :=
  ⟨rfl, (c10_test_connection_iff_no_raise allFailEnv).2 rfl⟩

/-- Helper: setpoint computation when the raw attribute key is absent:
the integer default is fetched, is not None, and is stored as a float. -/
theorem setpoint_attr_absent (attrs : List (PyVal × PyVal)) (key : String) (d : Rat)
    (h : dGet? attrs (.str key) = Option.none) :
    setpoint_attr attrs key d = .ok (some d) := by
  have hd : dGetD attrs (.str key) (.num d) = .num d := by
    unfold dGetD
    rw [h]
    rfl
  unfold setpoint_attr
  rw [hd]
  rfl

/-- Helper: setpoint computation when the raw attribute value is null:
the attribute is left unset. -/
theorem setpoint_attr_null (attrs : List (PyVal × PyVal)) (key : String) (d : Rat)
    (h : dGet? attrs (.str key) = some PyVal.none) :
    setpoint_attr attrs key d = .ok Option.none := by
  have hd : dGetD attrs (.str key) (.num d) = PyVal.none := by
    unfold dGetD
    rw [h]
    rfl
  unfold setpoint_attr
  rw [hd]

/-- Helper: setpoint computation when the raw attribute value is present,
non-null and float-convertible. -/
theorem setpoint_attr_of_val (attrs : List (PyVal × PyVal)) (key : String) (d : Rat)
    (v : PyVal) (q : Rat)
    (hv : dGet? attrs (.str key) = some v) (hq : pyFloat v = .ok q) :
    setpoint_attr attrs key d = .ok (some q) := by
  have hd : dGetD attrs (.str key) (.num d) = v := by
    unfold dGetD
    rw [hv]
    rfl
  unfold setpoint_attr
  rw [hd]
  cases v with
  | none => exact absurd hq (by simp [pyFloat])
  | bool b => simp only [hq]
  | num q2 => simp only [hq]
  | str s => simp only [hq]
  | list xs => simp only [hq]
  | dict kvs => simp only [hq]

/-- Claim C2 counterexample: a thermostat whose supportedThermostatModes
value is the number 7 makes create_climate_entity raise (the TypeError of
the membership test on a non-container), refuting that a wrong-type value
silently yields an empty mode list and that the builder never raises. -/
theorem c2_counterexample_numeric_modes_raise :
    EntityMapper.create_climate_entity (thermoDevice numModesAttrs) = .error () := by rfl

/-- Claim C2 (amended): a JSON-encoded string value for
supportedThermostatModes is decoded into the mode list (the spec example
yields heat and cool); a string that fails to parse silently yields the
empty mode list so the feature set is on/off only; but a numeric value is
passed through unparsed and makes the builder raise at the membership
test instead of yielding an empty list. -/
theorem c2_amended_supported_modes (attrs : List (PyVal × PyVal)) :
    ((EntityMapper.create_climate_entity
        (thermoDevice [(.str "supportedThermostatModes", .str "[\"heat\",\"cool\"]")])).map
        (fun e => e.features)
      = .ok [ClimateFeature.on_off, ClimateFeature.heat, ClimateFeature.cool]) ∧
    (∀ s ct tt, dGetD attrs (.str "supportedThermostatModes") (.str "[]") = .str s →
      jsonParse s = Option.none →
      temp_attr attrs "temperature" 20 = .ok ct →
      temp_attr attrs "thermostatSetpoint" 20 = .ok tt →
      (EntityMapper.create_climate_entity (thermoDevice attrs)).map (fun e => e.features)
        = .ok [ClimateFeature.on_off]) ∧
    (∀ q, dGetD attrs (.str "supportedThermostatModes") (.str "[]") = .num q →
      EntityMapper.create_climate_entity (thermoDevice attrs) = .error ()) := by
  refine ⟨rfl, ?_, ?_⟩
  · intro s ct tt h1 h2 h3 h4
    have hfeat : climate_features attrs = .ok [ClimateFeature.on_off] := by
      unfold climate_features parsedModes
      simp only [h1, h2]
      rfl
    rw [create_thermo_eq attrs [ClimateFeature.on_off] ct tt Option.none Option.none
      hfeat h3 h4 rfl rfl]
    rfl
  · intro q h
    have hfeat : climate_features attrs = .error () := by
      unfold climate_features parsedModes
      rw [h]
      rfl
    exact climate_features_error_entity attrs hfeat

/-- Witness for the amended C2 at a thermostat with an unparsable modes
string. -/
theorem c2_amended_supported_modes_witness :
    dGetD badModesAttrs (.str "supportedThermostatModes") (.str "[]") = .str "not json" ∧
    jsonParse "not json" = Option.none ∧
    temp_attr badModesAttrs "temperature" 20 = .ok 20 ∧
    temp_attr badModesAttrs "thermostatSetpoint" 20 = .ok 20 ∧
    (EntityMapper.create_climate_entity (thermoDevice badModesAttrs)).map (fun e => e.features)
      = .ok [ClimateFeature.on_off] :=
  ⟨rfl, rfl, rfl, rfl,
    (c2_amended_supported_modes badModesAttrs).2.1 "not json" 20 20 rfl rfl rfl rfl⟩

/-- Claim C3 counterexample: a heat-capable thermostat without a
heatingSetpoint attribute gets target_temperature_heat = 20.0, refuting
that the attribute is omitted when the raw key is absent. -/
theorem c3_counterexample_absent_setpoint_defaulted :
    dGet? heatNoSetpointAttrs (.str "heatingSetpoint") = Option.none ∧
    (EntityMapper.create_climate_entity (thermoDevice heatNoSetpointAttrs)).map
        (fun e => e.features) = .ok [ClimateFeature.on_off, ClimateFeature.heat] ∧
    (EntityMapper.create_climate_entity (thermoDevice heatNoSetpointAttrs)).map
        (fun e => eGet? e.attributes "target_temperature_heat") = .ok (some (.num 20)) :=
  ⟨rfl, rfl, rfl⟩

/-- Claim C3 (amended): with the heat feature present,
target_temperature_heat is the float of heatingSetpoint when the key is
present with a non-null value, the default 20.0 when the key is absent,
and is omitted only when the key is present with a null value;
symmetrically for the cool feature and coolingSetpoint with default
24.0. -/
theorem c3_amended_setpoint_defaults (attrs : List (PyVal × PyVal))
    (fs : List ClimateFeature) (ct tt : Rat)
    (hf : climate_features attrs = .ok fs)
    (h2 : temp_attr attrs "temperature" 20 = .ok ct)
    (h3 : temp_attr attrs "thermostatSetpoint" 20 = .ok tt) :
    (∀ cs, (if fs.contains ClimateFeature.cool then setpoint_attr attrs "coolingSetpoint" 24
        else .ok Option.none) = .ok cs →
      fs.contains ClimateFeature.heat = true →
      ((dGet? attrs (.str "heatingSetpoint") = Option.none →
        (EntityMapper.create_climate_entity (thermoDevice attrs)).map
          (fun e => eGet? e.attributes "target_temperature_heat") = .ok (some (.num 20))) ∧
      (dGet? attrs (.str "heatingSetpoint") = some PyVal.none →
        (EntityMapper.create_climate_entity (thermoDevice attrs)).map
          (fun e => eGet? e.attributes "target_temperature_heat") = .ok Option.none) ∧
      (∀ v q, dGet? attrs (.str "heatingSetpoint") = some v → pyFloat v = .ok q →
        (EntityMapper.create_climate_entity (thermoDevice attrs)).map
          (fun e => eGet? e.attributes "target_temperature_heat") = .ok (some (.num q))))) ∧
    (∀ hs, (if fs.contains ClimateFeature.heat then setpoint_attr attrs "heatingSetpoint" 20
        else .ok Option.none) = .ok hs →
      fs.contains ClimateFeature.cool = true →
      ((dGet? attrs (.str "coolingSetpoint") = Option.none →
        (EntityMapper.create_climate_entity (thermoDevice attrs)).map
          (fun e => eGet? e.attributes "target_temperature_cool") = .ok (some (.num 24))) ∧
      (dGet? attrs (.str "coolingSetpoint") = some PyVal.none →
        (EntityMapper.create_climate_entity (thermoDevice attrs)).map
          (fun e => eGet? e.attributes "target_temperature_cool") = .ok Option.none) ∧
      (∀ v q, dGet? attrs (.str "coolingSetpoint") = some v → pyFloat v = .ok q →
        (EntityMapper.create_climate_entity (thermoDevice attrs)).map
          (fun e => eGet? e.attributes "target_temperature_cool") = .ok (some (.num q))))) := by
  constructor
  · intro cs hcs hheat
    refine ⟨?_, ?_, ?_⟩
    · intro habs
      have h4 : (if fs.contains ClimateFeature.heat then setpoint_attr attrs "heatingSetpoint" 20
          else .ok Option.none) = .ok (some 20) := by
        rw [if_pos hheat]
        exact setpoint_attr_absent attrs "heatingSetpoint" 20 habs
      rw [create_thermo_eq attrs fs ct tt (some 20) cs hf h2 h3 h4 hcs]
      simp only [Except.map]
      rw [eattrs_heat_some]
    · intro hnull
      have h4 : (if fs.contains ClimateFeature.heat then setpoint_attr attrs "heatingSetpoint" 20
          else .ok Option.none) = .ok Option.none := by
        rw [if_pos hheat]
        exact setpoint_attr_null attrs "heatingSetpoint" 20 hnull
      rw [create_thermo_eq attrs fs ct tt Option.none cs hf h2 h3 h4 hcs]
      simp only [Except.map]
      rw [eattrs_heat_none]
    · intro v q hv hq
      have h4 : (if fs.contains ClimateFeature.heat then setpoint_attr attrs "heatingSetpoint" 20
          else .ok Option.none) = .ok (some q) := by
        rw [if_pos hheat]
        exact setpoint_attr_of_val attrs "heatingSetpoint" 20 v q hv hq
      rw [create_thermo_eq attrs fs ct tt (some q) cs hf h2 h3 h4 hcs]
      simp only [Except.map]
      rw [eattrs_heat_some]
  · intro hs hhs hcool
    refine ⟨?_, ?_, ?_⟩
    · intro habs
      have h5 : (if fs.contains ClimateFeature.cool then setpoint_attr attrs "coolingSetpoint" 24
          else .ok Option.none) = .ok (some 24) := by
        rw [if_pos hcool]
        exact setpoint_attr_absent attrs "coolingSetpoint" 24 habs
      rw [create_thermo_eq attrs fs ct tt hs (some 24) hf h2 h3 hhs h5]
      simp only [Except.map]
      rw [eattrs_cool_some]
    · intro hnull
      have h5 : (if fs.contains ClimateFeature.cool then setpoint_attr attrs "coolingSetpoint" 24
          else .ok Option.none) = .ok Option.none := by
        rw [if_pos hcool]
        exact setpoint_attr_null attrs "coolingSetpoint" 24 hnull
      rw [create_thermo_eq attrs fs ct tt hs Option.none hf h2 h3 hhs h5]
      simp only [Except.map]
      rw [eattrs_cool_none]
    · intro v q hv hq
      have h5 : (if fs.contains ClimateFeature.cool then setpoint_attr attrs "coolingSetpoint" 24
          else .ok Option.none) = .ok (some q) := by
        rw [if_pos hcool]
        exact setpoint_attr_of_val attrs "coolingSetpoint" 24 v q hv hq
      rw [create_thermo_eq attrs fs ct tt hs (some q) hf h2 h3 hhs h5]
      simp only [Except.map]
      rw [eattrs_cool_some]

/-- Witness for the amended C3 at a heat-only thermostat without a
heatingSetpoint key: the entity carries the default 20.0. -/
theorem c3_amended_setpoint_defaults_witness :
    climate_features heatNoSetpointAttrs = .ok [ClimateFeature.on_off, ClimateFeature.heat] ∧
    dGet? heatNoSetpointAttrs (.str "heatingSetpoint") = Option.none ∧
    (EntityMapper.create_climate_entity (thermoDevice heatNoSetpointAttrs)).map
      (fun e => eGet? e.attributes "target_temperature_heat") = .ok (some (.num 20)) :=
  ⟨rfl, rfl,
    ((c3_amended_setpoint_defaults heatNoSetpointAttrs
        [ClimateFeature.on_off, ClimateFeature.heat] 20 20 rfl rfl rfl).1
      Option.none rfl rfl).1 rfl⟩

/-- Claim C7: handling setTargetTemperature with a temperature parameter
while the cached state is COOL sends exactly one setCoolingSetpoint
command and sets both target_temperature_cool and target_temperature to
the given value, leaving every other attribute (in particular
target_temperature_heat) unchanged; while the cached state is AUTO or
OFF, a single setHeatingSetpoint command is sent and only
target_temperature is updated. -/
theorem c7_set_target_temperature (device_id : String)
    (attrs : List (String × PyVal)) (p : List (PyVal × PyVal)) (temp : PyVal) (q : Rat)
    (hp : dGet? p (.str "temperature") = some temp)
    (hq : pyFloat temp = .ok q) :
    ((eGetD attrs "state" (.str "HEAT") = .str "COOL" →
      climate_command device_id attrs "target_temperature" (some p)
          = .ok ([⟨device_id, "setCoolingSetpoint", some [temp]⟩],
            eSet (eSet attrs "target_temperature_cool" (.num q)) "target_temperature" (.num q)) ∧
      eGet? (eSet (eSet attrs "target_temperature_cool" (.num q)) "target_temperature" (.num q))
          "target_temperature_cool" = some (.num q) ∧
      eGet? (eSet (eSet attrs "target_temperature_cool" (.num q)) "target_temperature" (.num q))
          "target_temperature" = some (.num q) ∧
      (∀ k, k ≠ "target_temperature_cool" → k ≠ "target_temperature" →
        eGet? (eSet (eSet attrs "target_temperature_cool" (.num q)) "target_temperature" (.num q)) k
          = eGet? attrs k)) ∧
    ((eGetD attrs "state" (.str "HEAT") = .str "AUTO" ∨
        eGetD attrs "state" (.str "HEAT") = .str "OFF") →
      climate_command device_id attrs "target_temperature" (some p)
          = .ok ([⟨device_id, "setHeatingSetpoint", some [temp]⟩],
            eSet attrs "target_temperature" (.num q)) ∧
      eGet? (eSet attrs "target_temperature" (.num q)) "target_temperature" = some (.num q) ∧
      (∀ k, k ≠ "target_temperature" →
        eGet? (eSet attrs "target_temperature" (.num q)) k = eGet? attrs k))) := by
  have e0 : climate_command device_id attrs "target_temperature" (some p) =
      (match dGet? p (.str "temperature") with
        | some t =>
          if pyEq (eGetD attrs "state" (.str "HEAT")) (.str "HEAT") then
            match pyFloat t with
            | .ok q2 => .ok ([⟨device_id, "setHeatingSetpoint", some [t]⟩],
                eSet (eSet attrs "target_temperature_heat" (.num q2)) "target_temperature" (.num q2))
            | .error e => .error e
          else if pyEq (eGetD attrs "state" (.str "HEAT")) (.str "COOL") then
            match pyFloat t with
            | .ok q2 => .ok ([⟨device_id, "setCoolingSetpoint", some [t]⟩],
                eSet (eSet attrs "target_temperature_cool" (.num q2)) "target_temperature" (.num q2))
            | .error e => .error e
          else
            match pyFloat t with
            | .ok q2 => .ok ([⟨device_id, "setHeatingSetpoint", some [t]⟩],
                eSet attrs "target_temperature" (.num q2))
            | .error e => .error e
        | Option.none => .ok ([], attrs)) := rfl
  constructor
  · intro hst
    refine ⟨?_, ?_, ?_, ?_⟩
    · rw [e0]
      simp only [hp]
      rw [hst]
      simp only [hq]
      rfl
    · rw [eGet?_eSet_ne _ _ _ _ (by decide), eGet?_eSet_self]
    · exact eGet?_eSet_self _ _ _
    · intro k h1 h2
      rw [eGet?_eSet_ne _ _ _ _ (Ne.symm h2), eGet?_eSet_ne _ _ _ _ (Ne.symm h1)]
  · intro hst
    refine ⟨?_, ?_, ?_⟩
    · rcases hst with h | h
      all_goals
        rw [e0]
        simp only [hp]
        rw [h]
        simp only [hq]
        rfl
    · exact eGet?_eSet_self _ _ _
    · intro k h1
      rw [eGet?_eSet_ne _ _ _ _ (Ne.symm h1)]

/-- Witness for C7: a COOL-state entity receives setCoolingSetpoint and
an OFF-state entity receives setHeatingSetpoint with only the generic
target updated. -/
theorem c7_set_target_temperature_witness :
    dGet? tempParams (.str "temperature") = some (.num 25) ∧
    pyFloat (.num 25) = .ok 25 ∧
    eGetD coolEntityAttrs "state" (.str "HEAT") = .str "COOL" ∧
    climate_command "77" coolEntityAttrs "target_temperature" (some tempParams)
        = .ok ([⟨"77", "setCoolingSetpoint", some [.num 25]⟩],
          eSet (eSet coolEntityAttrs "target_temperature_cool" (.num 25))
            "target_temperature" (.num 25)) ∧
    eGetD offEntityAttrs "state" (.str "HEAT") = .str "OFF" ∧
    climate_command "77" offEntityAttrs "target_temperature" (some tempParams)
        = .ok ([⟨"77", "setHeatingSetpoint", some [.num 25]⟩],
          eSet offEntityAttrs "target_temperature" (.num 25)) :=
  ⟨rfl, rfl, rfl,
    ((c7_set_target_temperature "77" coolEntityAttrs tempParams (.num 25) 25 rfl rfl).1 rfl).1,
    rfl,
    ((c7_set_target_temperature "77" offEntityAttrs tempParams (.num 25) 25 rfl rfl).2
      (Or.inr rfl)).1⟩
